import Mathlib

/-!
Verification of genshi/template/eval.py: the expression sandbox of the
genshi templating engine.  The Python source is shallowly embedded:

* runtime variable/attribute/item lookup (`LookupBase.lookup_name`,
  `lookup_attr`, `lookup_item`, the `LenientLookup` / `StrictLookup`
  policies, the `Undefined` sentinel and `UndefinedError` messages);
* the compile-time AST rewriter (`TemplateASTTransformer` with its
  scope-stack of local names);
* `Code.__init__`'s lookup-policy selection and `Code.__eq__`/`__hash__`.

Python exceptions are modelled as an error type threaded through
`Except`; host objects are modelled by their observable behaviour
(attribute table, class-attribute membership, item table, repr string).
-/

namespace GenshiEval

/-! ## Exceptions

The exception kinds that `eval.py` distinguishes by `except` clauses:
`AttributeError`, `KeyError`, `IndexError`, `TypeError`, the module's own
`UndefinedError` (which carries only its message here), and a catch-all
for any other host exception (tagged so that distinct errors stay
distinct when propagated). -/

inductive Exc where
  | attributeError
  | keyError
  | indexError
  | typeError
  | undefinedError (msg : String)
  | otherError (tag : Nat)
deriving DecidableEq, Repr

/-- A key passed to item access: either a text (basestring) key or a
non-textual one (int, object, ...), abstracted by a tag. Only
textual-vs-not matters to `lookup_item`'s `isinstance(key, basestring)`
test. -/
inductive PyKey where
  | str (s : String)
  | nonstr (tag : Nat)
deriving DecidableEq, Repr

/-- The actual key used in `obj[key]` inside `lookup_item`: the single
element when the key tuple had exactly one entry, otherwise the whole
tuple. -/
inductive ItemKey where
  | single (k : PyKey)
  | tuple (ks : List PyKey)
deriving DecidableEq, Repr

/-- A runtime value.  `undef` is an instance of the `Undefined` class
(eval.py lines 225-284), carrying the missing name and the optional
owner, `owner = none` standing for the module's `UNDEFINED` default
sentinel.  `obj` is any other host object, modelled by its observable
behaviour: its `repr` string, its attribute table `getattr(obj, k)`
(success or raised exception), the `hasattr(obj.__class__, k)` test and
its item table `obj[k]`. -/
inductive Value where
  | undef (name : String) (owner : Option Value)
  | obj (reprS : String)
        (attrs : String → Except Exc Value)
        (clsHasAttr : String → Bool)
        (items : ItemKey → Except Exc Value)

/-- The host `repr` of a value. For an `obj` it is the carried repr
string; for an `Undefined` instance it follows `Undefined.__repr__`,
`'<%s %r>' % (class name, self._name)` (string escaping inside `%r` is
not modelled). -/
def pyRepr : Value → String
  | .obj r _ _ _ => r
  | .undef n _ => "<Undefined '" ++ n ++ "'>"

/-- The message built by `UndefinedError.__init__` (eval.py lines
217-222): `'%s has no member named "%s"' % (repr(owner), name)` when an
owner was recorded, `'"%s" not defined' % name` otherwise. -/
def undefinedErrorMessage (name : String) (owner : Option Value) : String :=
  match owner with
  | some o => pyRepr o ++ " has no member named \"" ++ name ++ "\""
  | none => "\"" ++ name ++ "\" not defined"

/-! ## The Undefined sentinel (eval.py lines 225-284) -/

/-- An instance of the `Undefined` class: `__slots__ = ['_name',
'_owner']`, `_owner = none` when constructed with the default
`UNDEFINED` sentinel. -/
structure UndefinedVal where
  _name : String
  _owner : Option Value

/-- `Undefined.__iter__`: `iter([])`, the empty sequence. -/
def UndefinedVal.iterM (_ : UndefinedVal) : List Value := []

/-- `Undefined.__nonzero__`: `False`. -/
def UndefinedVal.nonzeroM (_ : UndefinedVal) : Bool := false

/-- `Undefined.__str__`: the literal `'undefined'`. -/
def UndefinedVal.strM (_ : UndefinedVal) : String := "undefined"

/-- `Undefined._die`: raises `UndefinedError(self._name, self._owner)`. -/
def UndefinedVal.dieM (u : UndefinedVal) : Except Exc Value :=
  .error (.undefinedError (undefinedErrorMessage u._name u._owner))

/-- `Undefined.__call__ = _die`. -/
def UndefinedVal.callM (u : UndefinedVal) : Except Exc Value := u.dieM

/-- `Undefined.__getattr__ = _die`. -/
def UndefinedVal.getattrM (u : UndefinedVal) : Except Exc Value := u.dieM

/-- `Undefined.__getitem__ = _die`. -/
def UndefinedVal.getitemM (u : UndefinedVal) : Except Exc Value := u.dieM

/-- The `Value` form of an `Undefined` instance. -/
def UndefinedVal.toValue (u : UndefinedVal) : Value := .undef u._name u._owner

/-! ## Host access primitives

`getattr`, `hasattr(obj.__class__, ...)` and `obj[...]` as the lookup
functions use them.  On an `obj` they consult the modelled behaviour
tables.  On an `Undefined` instance, `__getattr__` and `__getitem__`
are `_die`, so both accesses raise `UndefinedError` (which is not an
`AttributeError`/`KeyError`/..., hence never caught by the lookup
fallbacks). -/

def getattrV : Value → String → Except Exc Value
  | .obj _ attrs _ _, key => attrs key
  | .undef n o, _ => .error (.undefinedError (undefinedErrorMessage n o))

/-- `hasattr(obj.__class__, key)`. For an `Undefined` instance this test
is never reached by `lookup_attr` (getattr on it raises
`UndefinedError`, which the `except AttributeError` clause does not
catch), so its value is immaterial; `false` is used. -/
def clsHasAttrV : Value → String → Bool
  | .obj _ _ c _, key => c key
  | .undef _ _, _ => false

def getitemV : Value → ItemKey → Except Exc Value
  | .obj _ _ _ items, k => items k
  | .undef n o, _ => .error (.undefinedError (undefinedErrorMessage n o))

/-! ## Lookup policies (eval.py lines 287-410) -/

/-- The two lookup policies shipped with the module. -/
inductive Lookup where
  | lenient
  | strict
deriving DecidableEq, Repr

/-- `LenientLookup.undefined` returns `Undefined(key, owner=owner)`;
`StrictLookup.undefined` raises `UndefinedError(key, owner=owner)`
immediately. -/
def Lookup.undefined : Lookup → String → Option Value → Except Exc Value
  | .lenient, key, owner => .ok (.undef key owner)
  | .strict, key, owner => .error (.undefinedError (undefinedErrorMessage key owner))

/-- The `Markup` class from `genshi.core`, inserted into `BUILTINS`
(eval.py line 479).  Its own attribute/item protocol is outside this
module and not modelled; only its identity matters here. -/
def MarkupValue : Value :=
  .obj "<class Markup>" (fun _ => .error .attributeError) (fun _ => false)
    (fun _ => .error .typeError)

/-- The `Undefined` class object itself, inserted into `BUILTINS`
(eval.py line 479).  As with `MarkupValue`, only its identity matters. -/
def UndefinedClassValue : Value :=
  .obj "<class Undefined>" (fun _ => .error .attributeError) (fun _ => false)
    (fun _ => .error .typeError)

/-- `BUILTINS = __builtin__.__dict__.copy();
BUILTINS.update({'Markup': Markup, 'Undefined': Undefined})`
(eval.py lines 478-479).  The host built-in dictionary is a parameter
`host`; the two `update` entries override any host entry of the same
name. -/
def BUILTINS (host : String → Option Value) (name : String) : Option Value :=
  if name = "Markup" then some MarkupValue
  else if name = "Undefined" then some UndefinedClassValue
  else host name

/-- `LookupBase.lookup_name` (eval.py lines 304-312):
`val = data.get(name, UNDEFINED)`; if missing, `BUILTINS.get(name,
val)`; if still missing, `cls.undefined(name)` (with no owner). -/
def lookup_name (L : Lookup) (host : String → Option Value)
    (data : String → Option Value) (name : String) : Except Exc Value :=
  match data name with
  | some val => .ok val
  | none =>
      match BUILTINS host name with
      | some val => .ok val
      | none => L.undefined name none

/-- `LookupBase.lookup_attr` (eval.py lines 314-327):
`try: val = getattr(obj, key) except AttributeError:` — only
`AttributeError` is caught, any other exception propagates; then
`if hasattr(obj.__class__, key): raise` re-raises it; otherwise
`try: val = obj[key] except (KeyError, TypeError): val =
cls.undefined(key, owner=obj)` — item failures other than
`KeyError`/`TypeError` propagate. -/
def lookup_attr (L : Lookup) (obj : Value) (key : String) : Except Exc Value :=
  match getattrV obj key with
  | .ok val => .ok val
  | .error e =>
      if e = .attributeError then
        if clsHasAttrV obj key then .error e
        else
          match getitemV obj (.single (.str key)) with
          | .ok val => .ok val
          | .error e2 =>
              if e2 = .keyError ∨ e2 = .typeError then L.undefined key (some obj)
              else .error e2
      else .error e

/-- `if len(key) == 1: key = key[0]` at the top of `lookup_item`. -/
def unwrapKeys : List PyKey → ItemKey
  | [k] => .single k
  | ks => .tuple ks

/-- `isinstance(key, basestring)`: only an unwrapped single text key is
textual; a tuple of keys never is. -/
def isTextual : ItemKey → Option String
  | .single (.str s) => some s
  | _ => none

/-- `LookupBase.lookup_item` (eval.py lines 329-342): unwrap a
one-element key tuple, `try: return obj[key] except (AttributeError,
KeyError, IndexError, TypeError):`; for a textual key retry
`getattr(obj, key, UNDEFINED)` (the three-argument form, which only
swallows `AttributeError`) and fall back to `cls.undefined(key,
owner=obj)`; for a non-textual key `raise` re-raises the original
exception.  Item failures outside the four caught kinds propagate. -/
def lookup_item (L : Lookup) (obj : Value) (keys : List PyKey) : Except Exc Value :=
  let key := unwrapKeys keys
  match getitemV obj key with
  | .ok val => .ok val
  | .error e =>
      if e = .attributeError ∨ e = .keyError ∨ e = .indexError ∨ e = .typeError then
        match isTextual key with
        | some s =>
            match getattrV obj s with
            | .ok val => .ok val
            | .error e2 =>
                if e2 = .attributeError then L.undefined s (some obj)
                else .error e2
        | none => .error e
      else .error e

/-! ## Lookup selection and `Code` equality (eval.py lines 68-130) -/

/-- The `lookup` argument accepted by `Code.__init__`: `None`, a string
naming a policy, or a lookup class passed directly. -/
inductive LookupArg where
  | noneArg
  | strArg (s : String)
  | clsArg (l : Lookup)
deriving DecidableEq, Repr

/-- The declared default of the `lookup` parameter:
`lookup='strict'` (eval.py line 72). -/
def defaultLookupArg : LookupArg := .strArg "strict"

/-- The lookup-selection logic of `Code.__init__` (eval.py lines
98-101): `if lookup is None: lookup = LenientLookup elif
isinstance(lookup, basestring): lookup = {'lenient': LenientLookup,
'strict': StrictLookup}[lookup]`.  The dictionary subscript raises
`KeyError` for any other string, modelled as `none`. -/
def chooseLookup : LookupArg → Option Lookup
  | .noneArg => some .lenient
  | .strArg s =>
      if s = "lenient" then some .lenient
      else if s = "strict" then some .strict
      else none
  | .clsArg l => some l

/-- The concrete type of a `Code` instance: `Expression` (mode
`'eval'`) or `Suite` (mode `'exec'`). -/
inductive CodeTy where
  | expression
  | suite
deriving DecidableEq, Repr

/-- A constructed `Code` object as far as `__eq__`/`__hash__` observe
it: its concrete type and its compiled code object.  Two compiled code
objects are equal exactly when their contents coincide; they are
abstracted by a `Nat` identifier with that equality. -/
structure CodeVal where
  ty : CodeTy
  code : Nat
deriving DecidableEq, Repr

/-- `Code.__eq__` (eval.py lines 119-120):
`(type(other) == type(self)) and (self.code == other.code)`. -/
def codeEq (a b : CodeVal) : Bool :=
  a.ty == b.ty && a.code == b.code

/-- `Code.__hash__` (eval.py lines 122-123): `hash(self.code)`, for an
arbitrary host hash function on code objects. -/
def codeHash (h : Nat → Nat) (a : CodeVal) : Nat := h a.code

/-! ## The syntax tree (the `_ast` node kinds the transformer manipulates)

`TExpr` embeds the expression nodes that `TemplateASTTransformer`
inspects or rewrites: `Name` (with its expression context), `Str`,
`Call`, `Tuple`, `Lambda` (with its `arguments` node flattened into the
parameter list plus the `vararg`/`kwarg` identifiers; parameter
defaults are not modelled), the `comprehension` clause node, `ListComp`
and `GeneratorExp`.  Lists of children use the companion `TExprList` so
that the transformer can recurse structurally.  Tuple-unpacking
parameters are excluded: `_extract_names`'s `Tuple` branch calls
`_process` on the `Tuple` node itself and never terminates on them. -/

inductive ExprCtx where
  | load
  | store
  | augLoad
  | augStore
  | param
  | delCtx
deriving DecidableEq, Repr

mutual

inductive TExpr where
  | name (id : String) (ctx : ExprCtx)
  | strE (s : String)
  | call (func : TExpr) (args : TExprList)
  | tupleE (elts : TExprList) (ctx : ExprCtx)
  | lam (params : TExprList) (vararg : Option String) (kwarg : Option String) (body : TExpr)
  | comp (target : TExpr) (iter : TExpr) (ifs : TExprList)
  | listComp (elt : TExpr) (gens : TExprList)
  | genExp (elt : TExpr) (gens : TExprList)

inductive TExprList where
  | nil
  | cons (head : TExpr) (tail : TExprList)

end

/-! Statement nodes reached by the transformer's cloning visitors that
matter for scope tracking: assignment, augmented assignment, `for`
loops (visitFor, eval.py lines 668-673) and bare expression
statements. -/
mutual

inductive TStmt where
  | assign (targets : TExprList) (value : TExpr)
  | augAssign (target : TExpr) (value : TExpr)
  | forS (target : TExpr) (iter : TExpr) (body : TStmtList) (orelse : TStmtList)
  | exprS (value : TExpr)

inductive TStmtList where
  | nil
  | cons (head : TStmt) (tail : TStmtList)

end

/-- A scope: one entry of `self.locals`, a set of identifiers.  The
Python code uses `set()`; only membership is observable, so a list
suffices. -/
abbrev NameSet := List String

/-- The scope stack `self.locals`, innermost scope last. -/
abbrev Stack := List NameSet

/-- `CONSTANTS = frozenset(['False', 'True', 'None', 'NotImplemented',
'Ellipsis'])` (eval.py line 480). -/
def CONSTANTS : NameSet := ["False", "True", "None", "NotImplemented", "Ellipsis"]

/-- `self.locals = [CONSTANTS]` in `TemplateASTTransformer.__init__`
(eval.py line 608): the initial scope stack. -/
def initLocals : Stack := [CONSTANTS]

/-- `flatten(self.locals)` from `genshi.util`: the union of all scope
entries (order is immaterial, only membership is used). -/
def flattenScopes (ls : Stack) : NameSet := ls.flatten

/-- `set.add`: insert an identifier into one scope. -/
def addName (s : NameSet) (id : String) : NameSet :=
  if s.contains id then s else s ++ [id]

/-- `self.locals[-1].add(id)`: insert into the innermost scope. -/
def addToInnermost : Stack → String → Stack
  | [], _ => []
  | [s], id => [addName s id]
  | s :: rest, id => s :: addToInnermost rest id

/-- `del self.locals[-n:]`: drop the `n` innermost scopes. -/
def dropLastN (l : Stack) (n : Nat) : Stack := l.take (l.length - n)

/-- Length of a `TExprList`. -/
def tlength : TExprList → Nat
  | .nil => 0
  | .cons _ rest => tlength rest + 1

/-- Left fold over a `TExprList`. -/
def tfoldl (f : NameSet → TExpr → NameSet) : NameSet → TExprList → NameSet
  | acc, .nil => acc
  | acc, .cons e rest => tfoldl f (f acc e) rest

/-- The replacement node built by `visitName` for an unbound load
(eval.py lines 731-735): `_lookup_name(__data__, '<id>')`. -/
def lookupNameCall (id : String) : TExpr :=
  .call (.name "_lookup_name" .load)
    (.cons (.name "__data__" .load) (.cons (.strE id) .nil))

/-- The `_process` helper inside `_extract_names` (eval.py lines
612-617), applied to one parameter node: a `Name` contributes its
identifier.  The `Tuple` branch of the source iterates `node.elts` but
recurses on the `Tuple` node itself, so it never terminates on a
non-empty tuple and contributes nothing on an empty one; any other node
kind contributes nothing.  The catch-all therefore covers exactly the
terminating cases. -/
def _processArg (acc : NameSet) : TExpr → NameSet
  | .name id _ => addName acc id
  | _ => acc

/-- `TemplateASTTransformer._extract_names` (eval.py lines 610-624):
collect the parameter names of an `arguments` node.  The variadic
names are NOT collected: the source probes `getattr(node, 'varargs',
None)` and `getattr(node, 'kwargs', None)`, but the `_ast.arguments`
fields are named `vararg` and `kwarg`, so both probes always yield
`None` and the two `arguments.add(...)` lines are dead (were a probe to
succeed, `node.args.varargs` would itself raise `AttributeError`, since
`node.args` is the parameter list).  The `_va`/`_kw` arguments are the
actual `vararg`/`kwarg` fields, kept in the signature to record that
they do not flow into the result. -/
def _extract_names (params : TExprList) (_va _kw : Option String) : NameSet :=
  tfoldl _processArg [] params

/-! ## The rewriter (`TemplateASTTransformer`, eval.py lines 602-740)

The transformer threads the mutable `self.locals` through every visit:
each function takes the current stack and returns the rewritten node
together with the updated stack.  Children are visited in the order of
the node's `_fields`, as `ASTTransformer._clonerVisit` does.

`transformGensRTL` implements the `visitGeneratorExp` loop (eval.py
lines 698-714).  The source iterates `node.generators[::-1]`, pushing
one fresh scope per clause and accumulating the rebuilt clauses, then
reverses the accumulated list; processing the tail of the declaration-
order list first is the same computation (latest clause first, results
kept in declaration order) expressed as structural recursion. -/

mutual

def transformExpr (ls : Stack) : TExpr → TExpr × Stack
  | .name id ctx =>
      if (ctx == .load || ctx == .augLoad) && !((flattenScopes ls).contains id) then
        (lookupNameCall id, ls)
      else if ctx == .store || ctx == .augStore then
        (.name id ctx, if ls.length > 1 then addToInnermost ls id else ls)
      else
        (.name id ctx, ls)
  | .strE s => (.strE s, ls)
  | .call f args =>
      let (f', ls1) := transformExpr ls f
      let (args', ls2) := transformExprList ls1 args
      (.call f' args', ls2)
  | .tupleE elts ctx =>
      let (elts', ls1) := transformExprList ls elts
      (.tupleE elts' ctx, ls1)
  | .lam params va kw body =>
      let ls0 := ls ++ [_extract_names params va kw]
      let (params', ls1) := transformExprList ls0 params
      let (body', ls2) := transformExpr ls1 body
      (.lam params' va kw body', ls2.dropLast)
  | .comp t i ifs =>
      let (t', ls1) := transformExpr ls t
      let (i', ls2) := transformExpr ls1 i
      let (ifs', ls3) := transformExprList ls2 ifs
      (.comp t' i' ifs', ls3)
  | .listComp elt gens =>
      let (gens', ls1) := transformGensRTL ls gens
      let (elt', ls2) := transformExpr ls1 elt
      (.listComp elt' gens', dropLastN ls2 (tlength gens))
  | .genExp elt gens =>
      let (gens', ls1) := transformGensRTL ls gens
      let (elt', ls2) := transformExpr ls1 elt
      (.genExp elt' gens', dropLastN ls2 (tlength gens))

def transformExprList (ls : Stack) : TExprList → TExprList × Stack
  | .nil => (.nil, ls)
  | .cons e rest =>
      let (e', ls1) := transformExpr ls e
      let (rest', ls2) := transformExprList ls1 rest
      (.cons e' rest', ls2)

def transformGensRTL (ls : Stack) : TExprList → TExprList × Stack
  | .nil => (.nil, ls)
  | .cons (.comp t i ifs) rest =>
      let (rest', ls1) := transformGensRTL ls rest
      let ls2 := ls1 ++ [[]]
      let (t', ls3) := transformExpr ls2 t
      let (i', ls4) := transformExpr ls3 i
      let (ifs', ls5) := transformExprList ls4 ifs
      (.cons (.comp t' i' ifs') rest', ls5)
  | .cons g rest =>
      let (rest', ls1) := transformGensRTL ls rest
      (.cons g rest', ls1)

end

/-! Statement visits: `visitFor` (eval.py lines 668-673) pushes a fresh
scope, clones `target`, `iter`, `body`, `orelse` in field order, then
pops; assignments and expression statements are plain clones (name
registration happens inside `visitName` on the `Store`-context
targets). -/
mutual

def transformStmt (ls : Stack) : TStmt → TStmt × Stack
  | .exprS e =>
      let (e', ls1) := transformExpr ls e
      (.exprS e', ls1)
  | .assign targets value =>
      let (ts', ls1) := transformExprList ls targets
      let (v', ls2) := transformExpr ls1 value
      (.assign ts' v', ls2)
  | .augAssign t v =>
      let (t', ls1) := transformExpr ls t
      let (v', ls2) := transformExpr ls1 v
      (.augAssign t' v', ls2)
  | .forS t i body orelse =>
      let ls0 := ls ++ [[]]
      let (t', ls1) := transformExpr ls0 t
      let (i', ls2) := transformExpr ls1 i
      let (body', ls3) := transformStmtList ls2 body
      let (orelse', ls4) := transformStmtList ls3 orelse
      (.forS t' i' body' orelse', ls4.dropLast)

def transformStmtList (ls : Stack) : TStmtList → TStmtList × Stack
  | .nil => (.nil, ls)
  | .cons s rest =>
      let (s', ls1) := transformStmt ls s
      let (rest', ls2) := transformStmtList ls1 rest
      (.cons s' rest', ls2)

end

/-! ## Helper lemmas about the scope stack -/

theorem mem_flattenScopes_concat (ls : Stack) (s : NameSet) (x : String)
    (hx : x ∈ s) : x ∈ flattenScopes (ls ++ [s]) := by
  simp [flattenScopes, hx]

theorem addToInnermost_concat (ls : Stack) (s : NameSet) (id : String) :
    addToInnermost (ls ++ [s]) id = ls ++ [addName s id] := by
  induction ls with
  | nil => rfl
  | cons a rest ih =>
      cases rest with
      | nil => rfl
      | cons b rest2 =>
          show a :: addToInnermost (b :: (rest2 ++ [s])) id
              = a :: ((b :: rest2) ++ [addName s id])
          rw [← List.cons_append, ih]

theorem addToInnermost_append_two (ls : Stack) (s1 s2 : NameSet) (id : String) :
    addToInnermost (ls ++ [s1, s2]) id = ls ++ [s1, addName s2 id] := by
  have h : ls ++ [s1, s2] = (ls ++ [s1]) ++ [s2] := by simp
  rw [h, addToInnermost_concat]
  simp

theorem dropLastN_concat_all (ls ext : Stack) : dropLastN (ls ++ ext) ext.length = ls := by
  have h : (ls ++ ext).length - ext.length = ls.length := by simp
  rw [dropLastN, h]
  exact List.take_left ls ext

/-- A sample host object whose attribute/item protocol always reports
absence; used only to instantiate witnesses with concrete values. -/
def sampleVal (r : String) : Value :=
  .obj r (fun _ => .error .attributeError) (fun _ => false) (fun _ => .error .typeError)

/-! ## Claim C9 -/

/-- C9: constructing an `Expression`/`Suite` with `lookup=None` selects
the Lenient policy, not the documented Strict default; the Strict
default (`lookup='strict'`) applies only when the argument is omitted,
and the two policies are distinct. -/
theorem c9_none_lookup_selects_lenient :
    chooseLookup LookupArg.noneArg = some Lookup.lenient
    ∧ chooseLookup defaultLookupArg = some Lookup.strict
    ∧ Lookup.lenient ≠ Lookup.strict := by
  refine ⟨rfl, by decide, by decide⟩

/-! ## Claim C10 -/

/-- C10: `Code.__eq__` holds exactly when the concrete types are
identical and the compiled code objects compare equal; an `Expression`
never compares equal to a `Suite`; and equal objects have equal hashes,
the hash being the host hash of the compiled code object. -/
theorem c10_code_equality (h : Nat → Nat) (a b : CodeVal) :
    (codeEq a b = true ↔ (a.ty = b.ty ∧ a.code = b.code))
    ∧ (a.ty = CodeTy.expression → b.ty = CodeTy.suite → codeEq a b = false)
    ∧ (codeEq a b = true → codeHash h a = codeHash h b) := by
  refine ⟨?_, ?_, ?_⟩
  · simp [codeEq]
  · intro ha hb
    simp [codeEq, ha, hb]
  · intro hEq
    have h2 : a.code = b.code := by
      have := (by simp [codeEq] : codeEq a b = true ↔ (a.ty = b.ty ∧ a.code = b.code)).mp hEq
      exact this.2
    simp [codeHash, h2]

/-- Witness for C10 at concrete inputs. -/
theorem c10_code_equality_witness :
    codeEq (CodeVal.mk CodeTy.expression 5) (CodeVal.mk CodeTy.suite 5) = false
    ∧ codeHash (fun n => n + 3) (CodeVal.mk CodeTy.expression 5)
      = codeHash (fun n => n + 3) (CodeVal.mk CodeTy.expression 5) := by
  refine ⟨?_, ?_⟩
  · exact (c10_code_equality (fun n => n + 3)
      (CodeVal.mk CodeTy.expression 5) (CodeVal.mk CodeTy.suite 5)).2.1 rfl rfl
  · exact (c10_code_equality (fun n => n + 3)
      (CodeVal.mk CodeTy.expression 5) (CodeVal.mk CodeTy.expression 5)).2.2 (by decide)

/-! ## Claim C6 -/

/-- C6: an `Undefined` value converts to boolean false, iterates as the
empty sequence, and prints as the literal `undefined`; calling it,
reading an attribute of it, or subscripting it raises an
`UndefinedError` whose message is `"<key>" not defined` when no owner
was recorded and `<repr(owner)> has no member named "<key>"` when an
owner is recorded. -/
theorem c6_undefined_sentinel (name : String) (owner : Option Value) :
    (UndefinedVal.mk name owner).nonzeroM = false
    ∧ (UndefinedVal.mk name owner).iterM = []
    ∧ (UndefinedVal.mk name owner).strM = "undefined"
    ∧ (UndefinedVal.mk name owner).callM
        = Except.error (Exc.undefinedError (undefinedErrorMessage name owner))
    ∧ (UndefinedVal.mk name owner).getattrM
        = Except.error (Exc.undefinedError (undefinedErrorMessage name owner))
    ∧ (UndefinedVal.mk name owner).getitemM
        = Except.error (Exc.undefinedError (undefinedErrorMessage name owner))
    ∧ undefinedErrorMessage name none = "\"" ++ name ++ "\" not defined"
    ∧ (∀ o : Value, undefinedErrorMessage name (some o)
        = pyRepr o ++ " has no member named \"" ++ name ++ "\"") :=
  ⟨rfl, rfl, rfl, rfl, rfl, rfl, rfl, fun _ => rfl⟩

/-- Witness for C6 at a concrete name and owner. -/
theorem c6_undefined_sentinel_witness :
    (UndefinedVal.mk "foo" none).strM = "undefined"
    ∧ (UndefinedVal.mk "foo" none).nonzeroM = false
    ∧ (UndefinedVal.mk "foo" none).callM
        = Except.error (Exc.undefinedError "\"foo\" not defined")
    ∧ undefinedErrorMessage "nil" (some (sampleVal "{}"))
        = "{} has no member named \"nil\"" := by
  have h := c6_undefined_sentinel "foo" none
  have h2 := c6_undefined_sentinel "nil" (some (sampleVal "{}"))
  exact ⟨h.2.2.1, h.1, h.2.2.2.1, h2.2.2.2.2.2.2.2 (sampleVal "{}")⟩

/-! ## Claim C5 -/

/-- C5: `lookup_name` returns the context's value when the name is
present in the context (a context entry thereby shadows a same-named
built-in); otherwise it returns the value from the fixed built-in
namespace — host built-ins updated with the `Markup` helper type and
the `Undefined` type — when present there; otherwise it invokes the
policy's `undefined(name)` with no owner.  Built-ins are thus available
without being present in the caller's context. -/
theorem c5_lookup_name (L : Lookup) (host data : String → Option Value) (name : String) :
    (∀ v : Value, data name = some v → lookup_name L host data name = .ok v)
    ∧ (data name = none → ∀ v : Value, BUILTINS host name = some v →
        lookup_name L host data name = .ok v)
    ∧ (data name = none → BUILTINS host name = none →
        lookup_name L host data name = L.undefined name none)
    ∧ BUILTINS host "Markup" = some MarkupValue
    ∧ BUILTINS host "Undefined" = some UndefinedClassValue
    ∧ (∀ v : Value, host name = some v → name ≠ "Markup" → name ≠ "Undefined" →
        lookup_name L host (fun _ => none) name = .ok v) := by
  refine ⟨?_, ?_, ?_, ?_, ?_, ?_⟩
  · intro v hv
    simp [lookup_name, hv]
  · intro hd v hb
    simp [lookup_name, hd, hb]
  · intro hd hb
    simp [lookup_name, hd, hb]
  · simp [BUILTINS]
  · simp [BUILTINS]
  · intro v hv hm hu
    simp [lookup_name, BUILTINS, hm, hu, hv]

/-- Witness for C5: `len` comes from the host built-ins with an empty
context; a context entry shadows a same-named built-in. -/
theorem c5_lookup_name_witness :
    lookup_name Lookup.lenient
      (fun n => if n = "len" then some (sampleVal "<built-in len>") else none)
      (fun _ => none) "len" = .ok (sampleVal "<built-in len>")
    ∧ lookup_name Lookup.strict
      (fun n => if n = "len" then some (sampleVal "<built-in len>") else none)
      (fun n => if n = "len" then some (sampleVal "<shadowing len>") else none)
      "len" = .ok (sampleVal "<shadowing len>") := by
  refine ⟨?_, ?_⟩
  · exact (c5_lookup_name Lookup.lenient
      (fun n => if n = "len" then some (sampleVal "<built-in len>") else none)
      (fun _ => none) "len").2.2.2.2.2 (sampleVal "<built-in len>") rfl
      (by decide) (by decide)
  · exact (c5_lookup_name Lookup.strict
      (fun n => if n = "len" then some (sampleVal "<built-in len>") else none)
      (fun n => if n = "len" then some (sampleVal "<shadowing len>") else none)
      "len").1 (sampleVal "<shadowing len>") rfl

/-! ## Claim C3 -/

/-- C3: `lookup_attr` returns the native attribute value when
`getattr` succeeds; when the access fails because the attribute is
genuinely absent (an `AttributeError` with the name absent from the
object's class), it falls back to item access, and when that also
fails with a key/type protocol error it invokes the policy's
`undefined(key, owner=obj)`; but when the attribute exists on the
object's type and its evaluation raised (the re-raised
`AttributeError`, or any non-`AttributeError` from the access), that
error propagates unchanged. -/
theorem c3_lookup_attr (L : Lookup) (r : String)
    (attrs : String → Except Exc Value) (cls : String → Bool)
    (items : ItemKey → Except Exc Value) (key : String) :
    (∀ v : Value, attrs key = .ok v →
        lookup_attr L (.obj r attrs cls items) key = .ok v)
    ∧ (attrs key = .error .attributeError → cls key = false →
        ∀ v : Value, items (.single (.str key)) = .ok v →
          lookup_attr L (.obj r attrs cls items) key = .ok v)
    ∧ (attrs key = .error .attributeError → cls key = false →
        ∀ e2 : Exc, items (.single (.str key)) = .error e2 →
          (e2 = .keyError ∨ e2 = .typeError) →
          lookup_attr L (.obj r attrs cls items) key
            = L.undefined key (some (.obj r attrs cls items)))
    ∧ (attrs key = .error .attributeError → cls key = true →
        lookup_attr L (.obj r attrs cls items) key = .error .attributeError)
    ∧ (∀ e : Exc, attrs key = .error e → e ≠ .attributeError →
        lookup_attr L (.obj r attrs cls items) key = .error e)
    ∧ (attrs key = .error .attributeError → cls key = false →
        ∀ e2 : Exc, items (.single (.str key)) = .error e2 →
          ¬(e2 = .keyError ∨ e2 = .typeError) →
          lookup_attr L (.obj r attrs cls items) key = .error e2) := by
  refine ⟨?_, ?_, ?_, ?_, ?_, ?_⟩
  · intro v hv
    simp [lookup_attr, getattrV, hv]
  · intro ha hc v hi
    simp [lookup_attr, getattrV, clsHasAttrV, getitemV, ha, hc, hi]
  · intro ha hc e2 hi he2
    simp [lookup_attr, getattrV, clsHasAttrV, getitemV, ha, hc, hi, he2]
  · intro ha hc
    simp [lookup_attr, getattrV, clsHasAttrV, ha, hc]
  · intro e ha he
    simp [lookup_attr, getattrV, ha, he]
  · intro ha hc e2 hi he2
    simp [lookup_attr, getattrV, clsHasAttrV, getitemV, ha, hc, hi, he2]

/-- A concrete host object for the C3 witness: attribute `a` defined,
item `b` defined, everything else absent (the class defines no
attributes, item access raises `KeyError`). -/
def c3obj : Value :=
  .obj "<thing>"
    (fun k => if k = "a" then .ok (sampleVal "A") else .error .attributeError)
    (fun _ => false)
    (fun k => if k = ItemKey.single (.str "b") then .ok (sampleVal "B")
              else .error .keyError)

/-- Witness for C3: native attribute wins, item fallback works, and a
fully absent member produces the policy's undefined outcome. -/
theorem c3_lookup_attr_witness :
    lookup_attr Lookup.lenient c3obj "a" = .ok (sampleVal "A")
    ∧ lookup_attr Lookup.lenient c3obj "b" = .ok (sampleVal "B")
    ∧ lookup_attr Lookup.lenient c3obj "c"
        = Lookup.lenient.undefined "c" (some c3obj) := by
  refine ⟨?_, ?_, ?_⟩
  · exact (c3_lookup_attr Lookup.lenient "<thing>"
      (fun k => if k = "a" then .ok (sampleVal "A") else .error .attributeError)
      (fun _ => false)
      (fun k => if k = ItemKey.single (.str "b") then .ok (sampleVal "B")
                else .error .keyError) "a").1 (sampleVal "A") rfl
  · exact (c3_lookup_attr Lookup.lenient "<thing>"
      (fun k => if k = "a" then .ok (sampleVal "A") else .error .attributeError)
      (fun _ => false)
      (fun k => if k = ItemKey.single (.str "b") then .ok (sampleVal "B")
                else .error .keyError) "b").2.1 rfl rfl (sampleVal "B") rfl
  · exact (c3_lookup_attr Lookup.lenient "<thing>"
      (fun k => if k = "a" then .ok (sampleVal "A") else .error .attributeError)
      (fun _ => false)
      (fun k => if k = ItemKey.single (.str "b") then .ok (sampleVal "B")
                else .error .keyError) "c").2.2.1 rfl rfl .keyError rfl (Or.inl rfl)

/-! ## Claim C4 -/

/-- C4: `lookup_item` unwraps a one-element key tuple to its single
key and attempts item access; on a caught protocol failure
(`AttributeError`/`KeyError`/`IndexError`/`TypeError`) with a textual
key it retries as attribute access and invokes the policy's
`undefined(key, owner=obj)` when that too is absent; with a
non-textual key (including a multi-element key tuple) the original
failure propagates without any retry. -/
theorem c4_lookup_item (L : Lookup) (r : String)
    (attrs : String → Except Exc Value) (cls : String → Bool)
    (items : ItemKey → Except Exc Value) :
    (∀ k : PyKey, unwrapKeys [k] = ItemKey.single k)
    ∧ (∀ ks : List PyKey, ∀ v : Value, items (unwrapKeys ks) = .ok v →
        lookup_item L (.obj r attrs cls items) ks = .ok v)
    ∧ (∀ s : String, ∀ e : Exc, ∀ v : Value,
        items (.single (.str s)) = .error e →
        (e = .attributeError ∨ e = .keyError ∨ e = .indexError ∨ e = .typeError) →
        attrs s = .ok v →
        lookup_item L (.obj r attrs cls items) [.str s] = .ok v)
    ∧ (∀ s : String, ∀ e : Exc,
        items (.single (.str s)) = .error e →
        (e = .attributeError ∨ e = .keyError ∨ e = .indexError ∨ e = .typeError) →
        attrs s = .error .attributeError →
        lookup_item L (.obj r attrs cls items) [.str s]
          = L.undefined s (some (.obj r attrs cls items)))
    ∧ (∀ t : Nat, ∀ e : Exc,
        items (.single (.nonstr t)) = .error e →
        (e = .attributeError ∨ e = .keyError ∨ e = .indexError ∨ e = .typeError) →
        lookup_item L (.obj r attrs cls items) [.nonstr t] = .error e)
    ∧ (∀ k1 k2 : PyKey, ∀ e : Exc,
        items (.tuple [k1, k2]) = .error e →
        (e = .attributeError ∨ e = .keyError ∨ e = .indexError ∨ e = .typeError) →
        lookup_item L (.obj r attrs cls items) [k1, k2] = .error e)
    ∧ (∀ s : String, ∀ e e2 : Exc,
        items (.single (.str s)) = .error e →
        (e = .attributeError ∨ e = .keyError ∨ e = .indexError ∨ e = .typeError) →
        attrs s = .error e2 → e2 ≠ .attributeError →
        lookup_item L (.obj r attrs cls items) [.str s] = .error e2)
    ∧ (∀ ks : List PyKey, ∀ e : Exc,
        items (unwrapKeys ks) = .error e →
        ¬(e = .attributeError ∨ e = .keyError ∨ e = .indexError ∨ e = .typeError) →
        lookup_item L (.obj r attrs cls items) ks = .error e) := by
  refine ⟨fun k => rfl, ?_, ?_, ?_, ?_, ?_, ?_, ?_⟩
  · intro ks v hv
    simp [lookup_item, getitemV, hv]
  · intro s e v hi he hv
    simp [lookup_item, getitemV, getattrV, unwrapKeys, isTextual, hi, he, hv]
  · intro s e hi he hv
    simp [lookup_item, getitemV, getattrV, unwrapKeys, isTextual, hi, he, hv]
  · intro t e hi he
    simp [lookup_item, getitemV, unwrapKeys, isTextual, hi, he]
  · intro k1 k2 e hi he
    simp [lookup_item, getitemV, unwrapKeys, isTextual, hi, he]
  · intro s e e2 hi he ha he2
    simp [lookup_item, getitemV, getattrV, unwrapKeys, isTextual, hi, he, ha, he2]
  · intro ks e hi he
    simp [lookup_item, getitemV, hi, he]

/-- A concrete host object for the C4 witness: a mapping defining item
`"some"` and attribute `myattr`, nothing else. -/
def c4obj : Value :=
  .obj "<mapping>"
    (fun k => if k = "myattr" then .ok (sampleVal "Bar") else .error .attributeError)
    (fun _ => false)
    (fun k => if k = ItemKey.single (.str "some") then .ok (sampleVal "thing")
              else .error .keyError)

/-- Witness for C4: a present item is returned; a missing textual key
falls back to the attribute; a missing textual key with no attribute
gives the undefined outcome; a missing non-textual key propagates the
`KeyError`. -/
theorem c4_lookup_item_witness :
    lookup_item Lookup.lenient c4obj [.str "some"] = .ok (sampleVal "thing")
    ∧ lookup_item Lookup.lenient c4obj [.str "myattr"] = .ok (sampleVal "Bar")
    ∧ lookup_item Lookup.lenient c4obj [.str "nil"]
        = Lookup.lenient.undefined "nil" (some c4obj)
    ∧ lookup_item Lookup.lenient c4obj [.nonstr 0] = .error .keyError := by
  refine ⟨?_, ?_, ?_, ?_⟩
  · exact (c4_lookup_item Lookup.lenient "<mapping>"
      (fun k => if k = "myattr" then .ok (sampleVal "Bar") else .error .attributeError)
      (fun _ => false)
      (fun k => if k = ItemKey.single (.str "some") then .ok (sampleVal "thing")
                else .error .keyError)).2.1 [.str "some"] (sampleVal "thing") rfl
  · exact (c4_lookup_item Lookup.lenient "<mapping>"
      (fun k => if k = "myattr" then .ok (sampleVal "Bar") else .error .attributeError)
      (fun _ => false)
      (fun k => if k = ItemKey.single (.str "some") then .ok (sampleVal "thing")
                else .error .keyError)).2.2.1 "myattr" .keyError (sampleVal "Bar")
        rfl (by decide) rfl
  · exact (c4_lookup_item Lookup.lenient "<mapping>"
      (fun k => if k = "myattr" then .ok (sampleVal "Bar") else .error .attributeError)
      (fun _ => false)
      (fun k => if k = ItemKey.single (.str "some") then .ok (sampleVal "thing")
                else .error .keyError)).2.2.2.1 "nil" .keyError rfl (by decide) rfl
  · exact (c4_lookup_item Lookup.lenient "<mapping>"
      (fun k => if k = "myattr" then .ok (sampleVal "Bar") else .error .attributeError)
      (fun _ => false)
      (fun k => if k = ItemKey.single (.str "some") then .ok (sampleVal "thing")
                else .error .keyError)).2.2.2.2.1 0 .keyError rfl (by decide)

/-! ## Claim C1 -/

/-- C1 counterexample: the identifier `Markup` is bound by no local
scope (it is not in `CONSTANTS`, so the bare-identifier expression is
rewritten to a `_lookup_name` call) and is absent from the (empty)
evaluation context, yet Lenient evaluation returns the `Markup` class
from `BUILTINS` — not an `Undefined` value — and Strict evaluation
returns it as well instead of raising an `UndefinedError`. -/
theorem c1_counterexample :
    (transformExpr initLocals (.name "Markup" .load)).1 = lookupNameCall "Markup"
    ∧ lookup_name Lookup.lenient (fun _ => none) (fun _ => none) "Markup"
        = .ok MarkupValue
    ∧ lookup_name Lookup.strict (fun _ => none) (fun _ => none) "Markup"
        = .ok MarkupValue
    ∧ MarkupValue ≠ Value.undef "Markup" none := by
  refine ⟨rfl, rfl, rfl, ?_⟩
  intro h
  simp [MarkupValue] at h

/-- C1 (amended): for every identifier not bound by any enclosing
local scope, absent from the evaluation context AND absent from the
built-in namespace, the rewriter turns the bare-identifier expression
into the `_lookup_name` call; Lenient evaluation of that call returns
an `Undefined` value whose text representation is `undefined` and
whose boolean conversion is false, while Strict evaluation raises an
`UndefinedError` naming that identifier. -/
theorem c1_amended (x : String) (host data : String → Option Value)
    (hscope : x ∉ flattenScopes initLocals)
    (hdata : data x = none)
    (hbuiltins : BUILTINS host x = none) :
    (transformExpr initLocals (.name x .load)).1 = lookupNameCall x
    ∧ lookup_name Lookup.lenient host data x
        = .ok (UndefinedVal.mk x none).toValue
    ∧ (UndefinedVal.mk x none).strM = "undefined"
    ∧ (UndefinedVal.mk x none).nonzeroM = false
    ∧ lookup_name Lookup.strict host data x
        = .error (.undefinedError ("\"" ++ x ++ "\" not defined")) := by
  refine ⟨?_, ?_, rfl, rfl, ?_⟩
  · simp [transformExpr, hscope]
  · simp [lookup_name, hdata, hbuiltins, Lookup.undefined, UndefinedVal.toValue]
  · simp [lookup_name, hdata, hbuiltins, Lookup.undefined, undefinedErrorMessage]

/-- Witness for C1 (amended) at the identifier `nothing` with an empty
context and empty host built-ins. -/
theorem c1_amended_witness :
    (transformExpr initLocals (.name "nothing" .load)).1 = lookupNameCall "nothing"
    ∧ lookup_name Lookup.lenient (fun _ => none) (fun _ => none) "nothing"
        = .ok (UndefinedVal.mk "nothing" none).toValue
    ∧ lookup_name Lookup.strict (fun _ => none) (fun _ => none) "nothing"
        = .error (.undefinedError "\"nothing\" not defined") := by
  have h := c1_amended "nothing" (fun _ => none) (fun _ => none) (by decide) rfl rfl
  exact ⟨h.1, h.2.1, h.2.2.2.2.trans (by rfl)⟩

/-! ## Claim C2 -/

/-- C2 counterexample: in `[x for x in d for y in x]` the identifier
`x` is bound as a comprehension target, yet its read in the second
clause's iterable is redirected to `_lookup_name(__data__, 'x')`
(the clauses are processed in reverse order, so the first clause's
target is not yet in scope there); hence a comprehension-target read
CAN be redirected to a same-named context entry, contradicting the
claim's "never". -/
theorem c2_counterexample :
    (transformExpr initLocals
      (.listComp (.name "x" .load)
        (.cons (.comp (.name "x" .store) (.name "d" .load) .nil)
          (.cons (.comp (.name "y" .store) (.name "x" .load) .nil) .nil)))).1
    = .listComp (.name "x" .load)
        (.cons (.comp (.name "x" .store) (lookupNameCall "d") .nil)
          (.cons (.comp (.name "y" .store) (lookupNameCall "x") .nil) .nil))
    ∧ lookupNameCall "x" ≠ TExpr.name "x" .load := by
  refine ⟨rfl, ?_⟩
  intro h
  exact TExpr.noConfusion h

/-- C2 (amended): a `Name` read in load position is replaced by the
`_lookup_name(__data__, name)` call exactly when the identifier is in
no entry of the scope stack at the moment the name is visited, and is
left untouched when it is in some entry.  Consequently a plain
(non-variadic) lambda parameter read in the lambda body, a loop
variable read in the loop body, and a comprehension target read in the
comprehension's element expression are evaluated directly and never
redirected through the context — but a comprehension target read in
another clause's iterable can still be redirected, because the clauses
are processed in reverse declaration order. -/
theorem c2_amended (ls : Stack) (hls : ls ≠ []) :
    (∀ id : String, transformExpr ls (.name id .load)
        = if id ∈ flattenScopes ls then (.name id .load, ls)
          else (lookupNameCall id, ls))
    ∧ (∀ id : String, id ∈ flattenScopes ls →
        transformExpr ls (.name id .load) = (.name id .load, ls))
    ∧ (∀ p : String, transformExpr ls
          (.lam (.cons (.name p .param) .nil) none none (.name p .load))
        = (.lam (.cons (.name p .param) .nil) none none (.name p .load), ls))
    ∧ (∀ x s : String, transformStmt ls
          (.forS (.name x .store) (.strE s) (.cons (.exprS (.name x .load)) .nil) .nil)
        = (.forS (.name x .store) (.strE s)
            (.cons (.exprS (.name x .load)) .nil) .nil, ls))
    ∧ (∀ x s : String, transformExpr ls
          (.listComp (.name x .load)
            (.cons (.comp (.name x .store) (.strE s) .nil) .nil))
        = (.listComp (.name x .load)
            (.cons (.comp (.name x .store) (.strE s) .nil) .nil), ls)) := by
  have h0 : 0 < ls.length := List.length_pos.mpr hls
  refine ⟨?_, ?_, ?_, ?_, ?_⟩
  · intro id
    by_cases h : id ∈ flattenScopes ls
    · simp [transformExpr, h]
    · simp [transformExpr, h]
  · intro id h
    simp [transformExpr, h]
  · intro p
    have hc : p ∈ flattenScopes (ls ++ [[p]]) :=
      mem_flattenScopes_concat ls [p] p (by simp)
    simp [transformExpr, transformExprList, _extract_names, tfoldl, _processArg,
          addName, hc, List.dropLast_concat]
  · intro x s
    have hc : x ∈ flattenScopes (ls ++ [[x]]) :=
      mem_flattenScopes_concat ls [x] x (by simp)
    simp [transformStmt, transformStmtList, transformExpr, h0,
          addToInnermost_concat, addName, hc, List.dropLast_concat]
  · intro x s
    have hc : x ∈ flattenScopes (ls ++ [[x]]) :=
      mem_flattenScopes_concat ls [x] x (by simp)
    have hd : dropLastN (ls ++ [[x]]) 1 = ls := by
      simpa using dropLastN_concat_all ls [[x]]
    simp [transformExpr, transformGensRTL, transformExprList, tlength,
          h0, addToInnermost_concat, addName, hc, hd]

/-- Witness for C2 (amended): at the initial scope stack, an unbound
identifier is redirected, while a lambda-parameter read in the lambda
body stays untouched. -/
theorem c2_amended_witness :
    transformExpr initLocals (.name "foo" .load) = (lookupNameCall "foo", initLocals)
    ∧ transformExpr initLocals
        (.lam (.cons (.name "x" .param) .nil) none none (.name "x" .load))
      = (.lam (.cons (.name "x" .param) .nil) none none (.name "x" .load),
         initLocals) := by
  have h := c2_amended initLocals (by decide)
  exact ⟨(h.1 "foo").trans (by rfl), h.2.2.1 "x"⟩

/-! ## Claim C7 -/

/-- C7 counterexample: in the single-clause comprehension
`[e for x in x]` there are no clauses declared before the clause, so
"rewritten in the scope of the clauses declared before it" would
redirect the iterable `x` to `_lookup_name(__data__, 'x')` — as the
rewrite of `x` under the unextended stack shows — yet the transformer
leaves the iterable untouched, because the clause's own target is
pushed and registered before its iterable is visited. -/
theorem c7_counterexample :
    (transformExpr initLocals
      (.listComp (.strE "e")
        (.cons (.comp (.name "x" .store) (.name "x" .load) .nil) .nil))).1
    = .listComp (.strE "e")
        (.cons (.comp (.name "x" .store) (.name "x" .load) .nil) .nil)
    ∧ (transformExpr initLocals (.name "x" .load)).1 = lookupNameCall "x"
    ∧ TExpr.name "x" .load ≠ lookupNameCall "x" := by
  refine ⟨rfl, rfl, ?_⟩
  intro h
  exact TExpr.noConfusion h

/-- C7 (amended): the rewriter processes the generator clauses of a
comprehension in reverse declaration order, pushing one new scope per
clause before visiting its target, iterable and conditions; each
clause's iterable expression is therefore rewritten in a scope stack
containing its own target and the targets of the clauses declared
AFTER it (not those declared before it); all the pushed scopes are
removed after the whole comprehension is rewritten.  Shown for a
two-clause comprehension with name targets and name iterables: the
second clause's iterable is rewritten under `ls ++ [[t2]]`, the first
clause's under `ls ++ [[t2], [t1]]`, and the final stack is `ls`
again. -/
theorem c7_amended (ls : Stack) (hls : ls ≠ []) (t1 t2 i1 i2 z : String) :
    transformExpr ls
      (.listComp (.name z .load)
        (.cons (.comp (.name t1 .store) (.name i1 .load) .nil)
          (.cons (.comp (.name t2 .store) (.name i2 .load) .nil) .nil)))
    = (.listComp
        (transformExpr (ls ++ [[t2], [t1]]) (.name z .load)).1
        (.cons (.comp (.name t1 .store)
            (transformExpr (ls ++ [[t2], [t1]]) (.name i1 .load)).1 .nil)
          (.cons (.comp (.name t2 .store)
              (transformExpr (ls ++ [[t2]]) (.name i2 .load)).1 .nil) .nil)),
       ls) := by
  have h0 : 0 < ls.length := List.length_pos.mpr hls
  have hd : dropLastN (ls ++ [[t2], [t1]]) 2 = ls := by
    simpa using dropLastN_concat_all ls [[t2], [t1]]
  simp [transformExpr, transformGensRTL, transformExprList, tlength, h0,
        addToInnermost_concat, addToInnermost_append_two, addName, hd, apply_ite]

/-- Witness for C7 (amended): `[x for x in items for y in x]` at the
initial scope stack; the second clause's iterable read of `x` is
redirected (only `y` is in scope there), the first clause's `items` is
redirected, the element read of `x` stays local, and the final stack
is the initial one. -/
theorem c7_amended_witness :
    transformExpr initLocals
      (.listComp (.name "x" .load)
        (.cons (.comp (.name "x" .store) (.name "items" .load) .nil)
          (.cons (.comp (.name "y" .store) (.name "x" .load) .nil) .nil)))
    = (.listComp (.name "x" .load)
        (.cons (.comp (.name "x" .store) (lookupNameCall "items") .nil)
          (.cons (.comp (.name "y" .store) (lookupNameCall "x") .nil) .nil)),
       initLocals) := by
  have h := c7_amended initLocals (by decide) "x" "y" "items" "x" "x"
  exact h.trans (by rfl)

/-! ## Claim C8 -/

/-- C8 (code defect): the scope pushed for a function or lambda is NOT
seeded with the variadic parameter names.  `_extract_names` probes
`getattr(node, 'varargs', None)` / `getattr(node, 'kwargs', None)`,
but the `_ast.arguments` fields are named `vararg`/`kwarg`, so the
probes always yield `None` and the variadic names are never added
(and `node.args.varargs` would raise were a probe to succeed).
Evaluated at the failing input `lambda *args: args`: the extracted
name set is empty and the body read of `args` is redirected to a
context lookup instead of reaching the local binding. -/
theorem c8_variadic_params_not_seeded :
    _extract_names .nil (some "args") (some "kw") = []
    ∧ (transformExpr initLocals
        (.lam .nil (some "args") none (.name "args" .load))).1
      = .lam .nil (some "args") none (lookupNameCall "args") :=
  ⟨rfl, rfl⟩

end GenshiEval
